import Mathlib

/-!
Verification of the frame-admission and detection-caching core of the
rekognition-logo-identification-custom-labels repository.

The development shallowly embeds, from the JavaScript sources:
* `js/smart-detection.js` — the `SmartDetection` class (motion estimation,
  image-quality scoring, time-based throttling, admission statistics);
* the `RekognitionService` class (result cache with TTL and size-bounded
  FIFO eviction, retry/backoff logic and retryable/fatal error
  classification).

Pixel buffers are modelled as lists of naturals (`Uint8ClampedArray`
entries), exact rational arithmetic stands in for JavaScript float
arithmetic, `Real.sqrt` stands in for `Math.sqrt`, wall-clock instants
(`Date.now()` milliseconds) are integers, and the `Map`-backed cache is an
insertion-ordered association list.
-/

namespace LogoDetection

/-- An `ImageData` value: width, height, and the RGBA byte buffer
(`data`, row-major, four bytes per pixel). -/
structure ImageData where
  width : ℕ
  height : ℕ
  data : List ℕ
  deriving Repr, DecidableEq

/-- Luminance of one RGB triple, `0.299*R + 0.587*G + 0.114*B`, as used
throughout `smart-detection.js`. -/
def lumOf (r g b : ℚ) : ℚ := 0.299 * r + 0.587 * g + 0.114 * b

/-- `SmartDetection.getLuminance(data, index)`: bounds-guarded luminance
of the RGB triple starting at byte `index`; out-of-range indices yield 0. -/
def getLuminance (data : List ℕ) (index : ℤ) : ℚ :=
  if index < 0 ∨ (data.length : ℤ) - 2 ≤ index then 0
  else lumOf (data.getD index.toNat 0) (data.getD (index.toNat + 1) 0)
    (data.getD (index.toNat + 2) 0)

/-- `SmartDetection.calculateFrameDifference(frame1, frame2)`: mean absolute
luminance delta over every 16th byte position, normalized by 255. -/
def calculateFrameDifference (frame1 frame2 : ImageData) : ℚ :=
  let idxs := (List.range ((frame1.data.length + 15) / 16)).map (fun j => 16 * j)
  let totalDiff : ℚ := (idxs.map (fun i =>
    |lumOf (frame1.data.getD i 0) (frame1.data.getD (i + 1) 0) (frame1.data.getD (i + 2) 0) -
      lumOf (frame2.data.getD i 0) (frame2.data.getD (i + 1) 0) (frame2.data.getD (i + 2) 0)|)).sum
  if 0 < idxs.length then (totalDiff / idxs.length) / 255 else 0

/-- The Sobel horizontal gradient `gx` of the sample at row `y`, column `x`
inside `SmartDetection.calculateSharpness`. -/
def sobelGx (img : ImageData) (y x : ℕ) : ℚ :=
  let w4 : ℤ := 4 * img.width
  let idx : ℤ := ((y * img.width + x) * 4 : ℕ)
  (-1) * getLuminance img.data (idx - w4 - 4) + 1 * getLuminance img.data (idx - w4 + 4)
    + (-2) * getLuminance img.data (idx - 4) + 2 * getLuminance img.data (idx + 4)
    + (-1) * getLuminance img.data (idx + w4 - 4) + 1 * getLuminance img.data (idx + w4 + 4)

/-- The Sobel vertical gradient `gy` of the sample at row `y`, column `x`
inside `SmartDetection.calculateSharpness`. -/
def sobelGy (img : ImageData) (y x : ℕ) : ℚ :=
  let w4 : ℤ := 4 * img.width
  let idx : ℤ := ((y * img.width + x) * 4 : ℕ)
  (-1) * getLuminance img.data (idx - w4 - 4) + (-2) * getLuminance img.data (idx - w4)
    + (-1) * getLuminance img.data (idx - w4 + 4) + 1 * getLuminance img.data (idx + w4 - 4)
    + 2 * getLuminance img.data (idx + w4) + 1 * getLuminance img.data (idx + w4 + 4)

/-- `Math.sqrt(gx*gx + gy*gy)`: the Sobel gradient magnitude of the sample
at row `y`, column `x`. -/
noncomputable def sobelAt (img : ImageData) (y x : ℕ) : ℝ :=
  Real.sqrt ((sobelGx img y x * sobelGx img y x + sobelGy img y x * sobelGy img y x : ℚ) : ℝ)

/-- Row indices visited by `calculateSharpness`: `y = 1, 2, …, height - 2`. -/
def sharpRows (img : ImageData) : List ℕ := (List.range (img.height - 2)).map (· + 1)

/-- Column indices visited by `calculateSharpness`:
`x = 1, 5, 9, …` while `x < width - 1`. -/
def sharpCols (img : ImageData) : List ℕ :=
  (List.range ((img.width - 2 + 3) / 4)).map (fun j => 4 * j + 1)

/-- The accumulated `sharpness` sum of `calculateSharpness`. -/
noncomputable def sharpTotal (img : ImageData) : ℝ :=
  ((sharpRows img).map (fun y => ((sharpCols img).map (fun x => sobelAt img y x)).sum)).sum

/-- `SmartDetection.calculateSharpness(imageData)`: average Sobel gradient
magnitude over the sampled grid, normalized by 255 (0 when no samples). -/
noncomputable def calculateSharpness (img : ImageData) : ℝ :=
  if 0 < (sharpRows img).length * (sharpCols img).length then
    sharpTotal img / ((sharpRows img).length * (sharpCols img).length : ℕ) / 255
  else 0

/-- Byte positions sampled by `calculateBrightness` (every 64th). -/
def brightSamples (img : ImageData) : List ℕ :=
  (List.range ((img.data.length + 63) / 64)).map (fun j => 64 * j)

/-- The `avgBrightness` value of `calculateBrightness`: mean luminance over
the sampled byte positions (0 when there are none). -/
def avgBrightness (img : ImageData) : ℚ :=
  if 0 < (brightSamples img).length then
    ((brightSamples img).map (fun i =>
      lumOf (img.data.getD i 0) (img.data.getD (i + 1) 0) (img.data.getD (i + 2) 0))).sum
      / (brightSamples img).length
  else 0

/-- `SmartDetection.calculateBrightness(imageData)`: maps the average
luminance to a score that is 1 on the optimal band [50, 200], scaled toward
0 below 50, and penalized above 200 (floored at 0). -/
def calculateBrightness (img : ImageData) : ℚ :=
  if avgBrightness img < 50 then avgBrightness img / 50 * 0.5
  else if 200 < avgBrightness img then max 0 (1 - (avgBrightness img - 200) / 55)
  else 1

/-- The combined quality score of `SmartDetection.assessImageQuality`:
`sharpness * 0.7 + brightness * 0.3`. -/
noncomputable def qualityScore (img : ImageData) : ℝ :=
  calculateSharpness img * 0.7 + (calculateBrightness img : ℝ) * 0.3

/-- `SmartDetection.assessImageQuality(imageData)`: true iff the combined
quality score strictly exceeds the configured quality threshold. -/
noncomputable def assessImageQuality (img : ImageData) (qualityThreshold : ℝ) : Bool :=
  decide (qualityThreshold < qualityScore img)

/-- The `stats` record of a `SmartDetection` instance. -/
structure SDStats where
  framesAnalyzed : ℕ
  framesSkipped : ℕ
  motionDetected : ℕ
  qualityPassed : ℕ
  deriving Repr, DecidableEq

/-- Mutable state of a `SmartDetection` instance. -/
structure SDState where
  lastFrame : Option ImageData
  lastScanTime : ℤ
  isEnabled : Bool
  motionThreshold : ℚ
  qualityThreshold : ℝ
  scanInterval : ℤ
  stats : SDStats

/-- `this.stats.framesAnalyzed++`. -/
def analyzedInc (s : SDState) : SDState :=
  { s with stats := { s.stats with framesAnalyzed := s.stats.framesAnalyzed + 1 } }

/-- `this.stats.framesSkipped++`. -/
def skipInc (s : SDState) : SDState :=
  { s with stats := { s.stats with framesSkipped := s.stats.framesSkipped + 1 } }

/-- `this.stats.motionDetected++`. -/
def motionInc (s : SDState) : SDState :=
  { s with stats := { s.stats with motionDetected := s.stats.motionDetected + 1 } }

/-- `this.stats.qualityPassed++`. -/
def qualityInc (s : SDState) : SDState :=
  { s with stats := { s.stats with qualityPassed := s.stats.qualityPassed + 1 } }

/-- `SmartDetection.detectMotion(currentImageData)`: admits on a fresh
baseline, otherwise admits iff the frame difference exceeds the motion
threshold; the baseline is replaced with (a copy of) the current frame on
every call. -/
def detectMotion (s : SDState) (img : ImageData) : Bool × SDState :=
  match s.lastFrame with
  | none => (true, motionInc { s with lastFrame := some img })
  | some prev =>
      if s.motionThreshold < calculateFrameDifference img prev then
        (true, motionInc { s with lastFrame := some img })
      else
        (false, { s with lastFrame := some img })

/-- `SmartDetection.shouldProcessFrame(frameData)` at wall-clock instant
`now`: bypass when disabled; otherwise throttle, then motion, then quality,
updating the statistics and (on full admission) `lastScanTime`. -/
noncomputable def shouldProcessFrame (s : SDState) (now : ℤ) (frame : ImageData) :
    Bool × SDState :=
  if s.isEnabled = false then (true, s)
  else if now - s.lastScanTime < s.scanInterval then
    (false, skipInc (analyzedInc s))
  else if (detectMotion (analyzedInc s) frame).1 = false then
    (false, skipInc (detectMotion (analyzedInc s) frame).2)
  else if assessImageQuality frame s.qualityThreshold = false then
    (false, skipInc (detectMotion (analyzedInc s) frame).2)
  else
    (true, qualityInc { (detectMotion (analyzedInc s) frame).2 with lastScanTime := now })

/-- A sequence of `shouldProcessFrame` calls, each given as a
(wall-clock instant, frame) pair, folded over the instance state. -/
noncomputable def runSD (s : SDState) (calls : List (ℤ × ImageData)) : SDState :=
  calls.foldl (fun st c => (shouldProcessFrame st c.1 c.2).2) s

/-- A bounding box from a Rekognition `CustomLabel` geometry
(normalized 0–1 coordinates). -/
structure BBox where
  left : ℚ
  top : ℚ
  width : ℚ
  height : ℚ
  deriving Repr, DecidableEq

/-- A processed detection as produced by
`RekognitionService.processDetectionResults`. -/
structure Detection where
  name : String
  confidence : ℚ
  boundingBox : Option BBox
  timestamp : ℤ
  deriving Repr, DecidableEq

/-- A raw `CustomLabel` as returned by the remote
`detectCustomLabels` call (confidence on the 0–100 scale). -/
structure RawLabel where
  name : String
  confidence : ℚ
  geometry : Option BBox
  deriving Repr, DecidableEq

/-- `RekognitionService.processDetectionResults(result)`: converts each raw
label's confidence to the 0–1 range, keeps the bounding box when present,
and stamps the current time. -/
def processDetectionResults (labels : List RawLabel) (now : ℤ) : List Detection :=
  labels.map (fun label =>
    { name := label.name
      confidence := label.confidence / 100
      boundingBox := label.geometry
      timestamp := now })

/-- One entry of `RekognitionService.detectionCache`:
the cached detections and the insertion timestamp. -/
structure CacheEntry where
  data : List Detection
  timestamp : ℤ
  deriving Repr, DecidableEq

/-- The `detectionCache` JavaScript `Map`, modelled as an
insertion-ordered association list (keys unique, oldest first). -/
abbrev CacheMap (α : Type) : Type := List (α × CacheEntry)

namespace CacheMap

variable {α : Type} [DecidableEq α]

/-- `Map.prototype.get`: the value stored at `k`, if any. -/
def mapGet (c : CacheMap α) (k : α) : Option CacheEntry :=
  (List.find? (fun p => p.1 = k) c).map (fun p => p.2)

/-- `Map.prototype.set`: replaces the value in place when the key exists
(keeping its insertion position), otherwise appends a new entry. -/
def mapSet (c : CacheMap α) (k : α) (v : CacheEntry) : CacheMap α :=
  if List.any c (fun p => p.1 = k) then
    List.map (fun p => if p.1 = k then (k, v) else p) c
  else c ++ [(k, v)]

/-- `Map.prototype.delete`: removes the entry stored at `k`, if any. -/
def mapDelete (c : CacheMap α) (k : α) : CacheMap α :=
  List.filter (fun p => ¬p.1 = k) c

/-- Number of entries (`Map.prototype.size`). -/
def size (c : CacheMap α) : ℕ := List.length c

/-- First-inserted key of the map (`map.keys().next().value`), if any. -/
def firstKey (c : CacheMap α) : Option α := (List.head? c).map (fun p => p.1)

end CacheMap

open CacheMap in
/-- `RekognitionService.getFromCache(key)`: returns the cached data when the
entry is younger than `cacheTimeout`; an expired entry is deleted as part of
the read and treated as a miss.  The second component is the cache after
the read. -/
def getFromCache {α : Type} [DecidableEq α] (c : CacheMap α) (now cacheTimeout : ℤ)
    (key : α) : Option (List Detection) × CacheMap α :=
  match mapGet c key with
  | some cached =>
      if now - cached.timestamp < cacheTimeout then (some cached.data, c)
      else (none, mapDelete c key)
  | none => (none, c)

open CacheMap in
/-- `RekognitionService.cacheResult(key, data)`: when the current size
exceeds 50, the first-inserted entry is deleted, then the new entry is
stored with the current timestamp. -/
def cacheResult {α : Type} [DecidableEq α] (c : CacheMap α) (now : ℤ) (key : α)
    (data : List Detection) : CacheMap α :=
  let c1 := if 50 < size c then
      match firstKey c with
      | some k0 => mapDelete c k0
      | none => c
    else c
  mapSet c1 key { data := data, timestamp := now }

/-- A JavaScript error object as inspected by `isRetryableError` and
`handleRekognitionError`: AWS error `code`, optional HTTP `statusCode`,
and `message`. -/
structure JsError where
  code : Option String
  statusCode : Option ℤ
  message : String
  deriving Repr, DecidableEq

/-- The retryable AWS error codes listed in
`RekognitionService.isRetryableError`. -/
def retryableCodes : List String :=
  ["ThrottlingException", "InternalServerError", "ServiceUnavailableException",
    "RequestTimeout"]

/-- `RekognitionService.isRetryableError(error)`: retryable iff the code is
in `retryableCodes`, or the status code is a 5xx, or the code is
`NetworkingError`. -/
def isRetryableError (e : JsError) : Bool :=
  (match e.code with
    | some c => retryableCodes.contains c
    | none => false)
  || (match e.statusCode with
    | some n => decide (500 ≤ n)
    | none => false)
  || (match e.code with
    | some c => decide (c = "NetworkingError")
    | none => false)

/-- `RekognitionService.handleRekognitionError(error)`: maps the AWS error
code to the human-readable message of the thrown `Error`. -/
def handleRekognitionError (e : JsError) : String :=
  match e.code with
  | some "InvalidParameterException" => "Invalid image format or parameters"
  | some "ResourceNotFoundException" => "Custom Labels model not found or not running"
  | some "AccessDeniedException" => "Access denied. Check AWS credentials and permissions"
  | some "ThrottlingException" => "Too many requests. Please wait and try again"
  | some "LimitExceededException" => "Service limit exceeded"
  | some "InternalServerError" => "AWS service error. Please try again"
  | _ => "AWS Error: " ++
      (if e.message = "" then
        (match e.code with
          | some c => c
          | none => "undefined")
      else e.message)

/-- Outcome of one `detectLogo` invocation: how many remote call attempts
were made, the backoff delays (milliseconds) slept between attempts, the
surfaced result (`Except` error message as thrown by
`handleRekognitionError`), and the cache afterwards. -/
structure DetectRun (α : Type) where
  attempts : ℕ
  delays : List ℕ
  outcome : Except String (List Detection)
  cache : CacheMap α

/-- `RekognitionService.detectLogo(imageDataUrl, retryCount)` after cache-key
derivation: consult the cache; on a miss issue the remote call (`oracle`
gives the outcome of the attempt indexed by `retryCount`); cache non-empty
successful results; on a retryable error with `retryCount < maxRetries`,
sleep `1000 * (retryCount + 1)` ms and recurse with `retryCount + 1`;
otherwise surface `handleRekognitionError`. -/
def detectLogoRec {α : Type} [DecidableEq α] (maxRetries : ℕ) (cacheTimeout : ℤ)
    (oracle : ℕ → Except JsError (List RawLabel)) (key : α) (now : ℤ)
    (cache : CacheMap α) (retryCount : ℕ) : DetectRun α :=
  match getFromCache cache now cacheTimeout key with
  | (some data, cache') => { attempts := 0, delays := [], outcome := .ok data, cache := cache' }
  | (none, cache') =>
      match oracle retryCount with
      | .ok raw =>
          let detections := processDetectionResults raw now
          let cache'' := if 0 < detections.length then cacheResult cache' now key detections
            else cache'
          { attempts := 1, delays := [], outcome := .ok detections, cache := cache'' }
      | .error e =>
          if hr : retryCount < maxRetries ∧ isRetryableError e = true then
            let rest := detectLogoRec maxRetries cacheTimeout oracle key now cache'
              (retryCount + 1)
            { attempts := rest.attempts + 1
              delays := 1000 * (retryCount + 1) :: rest.delays
              outcome := rest.outcome
              cache := rest.cache }
          else
            { attempts := 1, delays := [],
              outcome := .error (handleRekognitionError e), cache := cache' }
termination_by maxRetries - retryCount
decreasing_by omega

namespace CacheMap

variable {α : Type} [DecidableEq α]

theorem mapGet_nil (k : α) : mapGet ([] : CacheMap α) k = none := rfl

theorem mapGet_cons (p : α × CacheEntry) (t : CacheMap α) (k : α) :
    mapGet (p :: t) k = if p.1 = k then some p.2 else mapGet t k := by
  by_cases h : p.1 = k
  · rw [mapGet, List.find?_cons_of_pos _ (by simpa using h), if_pos h]
    rfl
  · rw [mapGet, List.find?_cons_of_neg _ (by simpa using h), if_neg h]
    rfl

theorem mapGet_eq_none_of_not_any (c : CacheMap α) (k : α)
    (h : ¬List.any c (fun p => p.1 = k) = true) : mapGet c k = none := by
  unfold mapGet
  rw [List.find?_eq_none.mpr]
  · rfl
  · intro x hx hk
    exact h (List.any_eq_true.mpr ⟨x, hx, hk⟩)

theorem mapGet_map_update (c : CacheMap α) (k : α) (v : CacheEntry)
    (h : mapGet c k ≠ none) :
    mapGet (c.map (fun p => if p.1 = k then (k, v) else p)) k = some v := by
  induction c with
  | nil => exact absurd rfl h
  | cons p t ih =>
    by_cases hp : p.1 = k
    · rw [List.map_cons, if_pos hp, mapGet_cons, if_pos rfl]
    · rw [List.map_cons, if_neg hp, mapGet_cons, if_neg hp]
      rw [mapGet_cons, if_neg hp] at h
      exact ih h

theorem find?_eq_none_of_mapGet_none (c : CacheMap α) (k : α)
    (h : mapGet c k = none) :
    List.find? (fun p => p.1 = k) c = none := by
  unfold mapGet at h
  exact Option.map_eq_none'.mp h

theorem mapSet_of_mapGet_none (c : CacheMap α) (k : α) (v : CacheEntry)
    (h : mapGet c k = none) : mapSet c k v = c ++ [(k, v)] := by
  unfold mapSet
  rw [if_neg]
  intro hany
  obtain ⟨x, hx, hk⟩ := List.any_eq_true.mp hany
  exact List.find?_eq_none.mp (find?_eq_none_of_mapGet_none c k h) x hx hk

theorem mapGet_append_of_none (c c' : CacheMap α) (k : α)
    (h : mapGet c k = none) : mapGet (c ++ c') k = mapGet c' k := by
  induction c with
  | nil => rfl
  | cons p t ih =>
    rw [mapGet_cons] at h
    by_cases hp : p.1 = k
    · rw [if_pos hp] at h
      exact absurd h (by simp)
    · rw [if_neg hp] at h
      rw [List.cons_append, mapGet_cons, if_neg hp]
      exact ih h

theorem mapGet_mapSet_self (c : CacheMap α) (k : α) (v : CacheEntry) :
    mapGet (mapSet c k v) k = some v := by
  by_cases hany : List.any c (fun p => p.1 = k) = true
  · unfold mapSet
    rw [if_pos hany]
    apply mapGet_map_update
    intro hnone
    obtain ⟨x, hx, hk⟩ := List.any_eq_true.mp hany
    exact List.find?_eq_none.mp (find?_eq_none_of_mapGet_none c k hnone) x hx hk
  · have hnone := mapGet_eq_none_of_not_any c k hany
    rw [mapSet_of_mapGet_none c k v hnone, mapGet_append_of_none c _ k hnone,
      mapGet_cons, if_pos rfl]

theorem mapGet_mapPairs (l : List α) (e : CacheEntry) (k : α) :
    mapGet (l.map (fun k0 => (k0, e))) k = if k ∈ l then some e else none := by
  induction l with
  | nil => simp [mapGet_nil]
  | cons a t ih =>
    rw [List.map_cons, mapGet_cons]
    by_cases ha : a = k
    · simp [ha]
    · rw [if_neg ha, ih]
      by_cases hm : k ∈ t
      · simp [hm]
      · have : ¬k ∈ a :: t := by
          simp [hm]
          exact fun hak => ha hak.symm
        simp [hm, this]

theorem mapDelete_head (p : α × CacheEntry) (t : CacheMap α)
    (hrest : ∀ q ∈ t, ¬q.1 = p.1) : mapDelete (p :: t) p.1 = t := by
  unfold mapDelete
  rw [List.filter_cons_of_neg (by simp)]
  exact List.filter_eq_self.mpr (fun q hq => by simpa using hrest q hq)

end CacheMap

open CacheMap

theorem cacheResult_of_small {α : Type} [DecidableEq α] (c : CacheMap α) (now : ℤ)
    (k : α) (d : List Detection) (hlen : c.length ≤ 50) (hk : mapGet c k = none) :
    cacheResult c now k d = c ++ [(k, ⟨d, now⟩)] := by
  unfold cacheResult
  rw [if_neg (by simp [CacheMap.size]; omega)]
  exact mapSet_of_mapGet_none c k _ hk

theorem cacheResult_of_big {α : Type} [DecidableEq α] (p : α × CacheEntry)
    (t : CacheMap α) (now : ℤ) (k : α) (d : List Detection)
    (h : 50 < (p :: t).length) :
    cacheResult (p :: t) now k d = mapSet (mapDelete (p :: t) p.1) k ⟨d, now⟩ := by
  simp only [cacheResult, CacheMap.size, CacheMap.firstKey, List.head?, Option.map_some']
  rw [if_pos (by simpa using h)]

theorem foldl_cacheResult_fresh {α : Type} [DecidableEq α] (now : ℤ)
    (d : List Detection) (keys : List α) : ∀ c : CacheMap α,
    c.length + keys.length ≤ 51 → (∀ k ∈ keys, mapGet c k = none) → keys.Nodup →
    keys.foldl (fun acc k => cacheResult acc now k d) c
      = c ++ keys.map (fun k => (k, ⟨d, now⟩)) := by
  induction keys with
  | nil => intro c _ _ _; simp
  | cons k rest ih =>
    intro c hlen hfresh hnd
    have hk : mapGet c k = none := hfresh k (List.mem_cons_self k rest)
    have hknr : k ∉ rest := (List.nodup_cons.mp hnd).1
    rw [List.foldl_cons, cacheResult_of_small c now k d (by simp at hlen; omega) hk]
    have hfresh' : ∀ k' ∈ rest,
        mapGet (c ++ [(k, (⟨d, now⟩ : CacheEntry))]) k' = none := by
      intro k' hk'
      rw [mapGet_append_of_none c _ k' (hfresh k' (List.mem_cons_of_mem k hk')),
        mapGet_cons, if_neg ?_, mapGet_nil]
      intro h
      have h' : k = k' := h
      exact hknr (h' ▸ hk')
    rw [ih (c ++ [(k, ({ data := d, timestamp := now } : CacheEntry))])
      (by simp at hlen ⊢; omega) hfresh' (List.nodup_cons.mp hnd).2]
    simp

/-- A sample non-empty detection result used as concrete cached data. -/
def demoDetections : List Detection :=
  [{ name := "Logo", confidence := 0.85, boundingBox := none, timestamp := 0 }]

/-- C1 counterexample: starting from an empty cache, performing
`cacheResult` on `maxEntries + 1 = 51` distinct keys does NOT evict the
first-inserted key — the cache simply grows to 51 entries and the first
key is still retrievable, because eviction only fires when the size
already exceeds 50 at insertion time. -/
theorem claim1_eviction_counterexample :
    mapGet ((List.range 51).foldl
        (fun acc k => cacheResult acc 0 k demoDetections) ([] : CacheMap ℕ)) 0
      = some ⟨demoDetections, 0⟩ ∧
    ((List.range 51).foldl
        (fun acc k => cacheResult acc 0 k demoDetections) ([] : CacheMap ℕ)).length
      = 51 := by
  rw [foldl_cacheResult_fresh 0 demoDetections (List.range 51) []
    (by simp) (fun k _ => rfl) (List.nodup_range 51)]
  rw [List.nil_append]
  constructor
  · rw [mapGet_mapPairs, if_pos (by simp)]
  · simp

/-- C1 amended: the capacity check `size > 50` runs before insertion, so
the cache momentarily holds up to `maxEntries + 1 = 51` entries.  Starting
from an empty cache, inserting `maxEntries + 2 = 52` distinct keys
(`k0`, then 50 middle keys, then `klast`) evicts exactly the
first-inserted key `k0` (FIFO), leaving every other inserted key
retrievable. -/
theorem claim1_eviction_amended {α : Type} [DecidableEq α] (k0 klast : α)
    (mids : List α) (d : List Detection) (now : ℤ) (hlen : mids.length = 50)
    (hnd : (k0 :: (mids ++ [klast])).Nodup) :
    (k0 :: (mids ++ [klast])).foldl (fun acc k => cacheResult acc now k d) []
        = (mids ++ [klast]).map (fun k => (k, CacheEntry.mk d now)) ∧
    mapGet ((k0 :: (mids ++ [klast])).foldl
        (fun acc k => cacheResult acc now k d) []) k0 = none ∧
    ∀ k ∈ mids ++ [klast], mapGet ((k0 :: (mids ++ [klast])).foldl
        (fun acc k => cacheResult acc now k d) []) k = some (CacheEntry.mk d now) := by
  obtain ⟨hk0, hnd2⟩ := List.nodup_cons.mp hnd
  obtain ⟨hndm, -, hdisj⟩ := List.nodup_append.mp hnd2
  have hk0m : k0 ∉ mids := fun h => hk0 (List.mem_append_left _ h)
  have hlm : klast ∉ mids := fun h => (hdisj h (List.mem_singleton_self klast)).elim
  have hmain : (k0 :: (mids ++ [klast])).foldl (fun acc k => cacheResult acc now k d) []
      = (mids ++ [klast]).map (fun k => (k, CacheEntry.mk d now)) := by
    have hfresh1 : ∀ k ∈ mids,
        mapGet [((k0 : α), (⟨d, now⟩ : CacheEntry))] k = none := by
      intro k hk
      rw [mapGet_cons, if_neg ?_, mapGet_nil]
      intro h
      have h' : k0 = k := h
      exact hk0m (h' ▸ hk)
    have hdel : mapDelete ((k0, CacheEntry.mk d now) ::
        mids.map (fun k => (k, CacheEntry.mk d now))) k0
        = mids.map (fun k => (k, CacheEntry.mk d now)) := by
      have hq : ∀ q ∈ mids.map (fun k => (k, CacheEntry.mk d now)),
          ¬q.1 = ((k0, CacheEntry.mk d now) : α × CacheEntry).1 := by
        intro q hq
        obtain ⟨k', hk', rfl⟩ := List.mem_map.mp hq
        intro h
        have h' : k' = k0 := h
        exact hk0m (h' ▸ hk')
      exact mapDelete_head (k0, CacheEntry.mk d now)
        (mids.map (fun k => (k, CacheEntry.mk d now))) hq
    rw [List.foldl_cons,
      cacheResult_of_small [] now k0 d (by simp) rfl, List.nil_append,
      List.foldl_append,
      foldl_cacheResult_fresh now d mids [(k0, ⟨d, now⟩)] (by simp [hlen]) hfresh1 hndm,
      List.singleton_append, List.foldl_cons, List.foldl_nil,
      cacheResult_of_big (k0, CacheEntry.mk d now)
        (mids.map (fun k => (k, CacheEntry.mk d now))) now klast d (by simp [hlen]),
      hdel,
      mapSet_of_mapGet_none _ klast _ (by rw [mapGet_mapPairs, if_neg hlm])]
    simp
  refine ⟨hmain, ?_, ?_⟩
  · rw [hmain, mapGet_mapPairs, if_neg hk0]
  · intro k hk
    rw [hmain, mapGet_mapPairs, if_pos hk]

/-- C1 witness: the amended eviction statement instantiated at the 52
distinct natural-number keys `0, 1, …, 50, 51`. -/
theorem claim1_eviction_witness :
    ((List.range 50).map (· + 1)).length = 50 ∧
    (0 :: ((List.range 50).map (· + 1) ++ [51])).Nodup ∧
    mapGet ((0 :: ((List.range 50).map (· + 1) ++ [51])).foldl
        (fun acc k => cacheResult acc 0 k demoDetections) ([] : CacheMap ℕ)) 0
      = none :=
  ⟨by simp, by decide,
    (claim1_eviction_amended 0 51 ((List.range 50).map (· + 1)) demoDetections 0
      (by simp) (by decide)).2.1⟩

/-- C7 confirmed: an entry inserted by `cacheResult` at time `t0` with
ttl `T` is a hit for `getFromCache` at any instant with `now - t0 < T`
(returning the cached detections and leaving the cache unchanged), and a
miss at any instant with `now - t0 ≥ T`, at which point the expired entry
is deleted from the cache as part of the read. -/
theorem claim7_cache_ttl {α : Type} [DecidableEq α] (c : CacheMap α) (key : α)
    (d : List Detection) (t0 T now : ℤ) :
    (now - t0 < T → getFromCache (cacheResult c t0 key d) now T key
      = (some d, cacheResult c t0 key d)) ∧
    (T ≤ now - t0 → getFromCache (cacheResult c t0 key d) now T key
      = (none, mapDelete (cacheResult c t0 key d) key)) := by
  have hget : mapGet (cacheResult c t0 key d) key = some ⟨d, t0⟩ := by
    unfold cacheResult
    exact mapGet_mapSet_self _ key _
  constructor
  · intro h
    unfold getFromCache
    rw [hget]
    simp only [if_pos h]
  · intro h
    unfold getFromCache
    rw [hget]
    simp only [if_neg (not_lt.mpr h)]

/-- C7 witness: with ttl 5000, an entry inserted at time 0 under key 7 is
a hit when read at time 4999 and a miss (with lazy deletion) at
time 5000. -/
theorem claim7_cache_ttl_witness :
    ((4999 : ℤ) - 0 < 5000 ∧
      getFromCache (cacheResult ([] : CacheMap ℕ) 0 7 demoDetections) 4999 5000 7
        = (some demoDetections, cacheResult ([] : CacheMap ℕ) 0 7 demoDetections)) ∧
    ((5000 : ℤ) ≤ 5000 - 0 ∧
      getFromCache (cacheResult ([] : CacheMap ℕ) 0 7 demoDetections) 5000 5000 7
        = (none, mapDelete (cacheResult ([] : CacheMap ℕ) 0 7 demoDetections) 7)) :=
  ⟨⟨by decide, (claim7_cache_ttl ([] : CacheMap ℕ) 7 demoDetections 0 5000 4999).1
      (by decide)⟩,
    ⟨by decide, (claim7_cache_ttl ([] : CacheMap ℕ) 7 demoDetections 0 5000 5000).2
      (by decide)⟩⟩

theorem detectLogoRec_all_fail {α : Type} [DecidableEq α] (mr : ℕ) (tout : ℤ)
    (oracle : ℕ → Except JsError (List RawLabel)) (key : α) (now : ℤ)
    (err : JsError) (hfail : ∀ k, oracle k = .error err)
    (hretry : isRetryableError err = true) :
    ∀ n r, mr - r = n →
    detectLogoRec mr tout oracle key now [] r =
      { attempts := n + 1
        delays := (List.range n).map (fun k => 1000 * (r + k + 1))
        outcome := .error (handleRekognitionError err)
        cache := [] } := by
  intro n
  induction n with
  | zero =>
    intro r hr
    rw [detectLogoRec]
    simp only [getFromCache, CacheMap.mapGet, List.find?_nil, Option.map_none', hfail r]
    rw [dif_neg (by omega)]
    simp
  | succ n ih =>
    intro r hr
    rw [detectLogoRec]
    simp only [getFromCache, CacheMap.mapGet, List.find?_nil, Option.map_none', hfail r]
    rw [dif_pos ⟨by omega, hretry⟩, ih (r + 1) (by omega)]
    congr 1
    rw [List.range_succ_eq_map, List.map_cons, List.map_map]
    refine List.cons_eq_cons.mpr ⟨by ring, ?_⟩
    exact List.map_congr_left (fun a _ => by
      simp only [Function.comp_apply, Nat.succ_eq_add_one]
      ring)

/-- C6 confirmed: when every remote call attempt fails with the same
retryable error, `detectLogo` makes exactly `maxRetries + 1` call attempts,
sleeping `k * 1000` ms before retry attempt `k` (linear backoff), and then
surfaces the failure; when the error is fatal (non-retryable), it makes
exactly 1 call attempt and surfaces the failure immediately. -/
theorem claim6_retry_ceiling {α : Type} [DecidableEq α] (mr : ℕ) (tout : ℤ)
    (oracle : ℕ → Except JsError (List RawLabel)) (key : α) (now : ℤ)
    (err : JsError) (hfail : ∀ k, oracle k = .error err) :
    (isRetryableError err = true →
      detectLogoRec mr tout oracle key now [] 0 =
        { attempts := mr + 1
          delays := (List.range mr).map (fun k => 1000 * (k + 1))
          outcome := .error (handleRekognitionError err)
          cache := [] }) ∧
    (isRetryableError err = false →
      detectLogoRec mr tout oracle key now [] 0 =
        { attempts := 1, delays := []
          outcome := .error (handleRekognitionError err), cache := [] }) := by
  constructor
  · intro hretry
    rw [detectLogoRec_all_fail mr tout oracle key now err hfail hretry mr 0 (by omega)]
    simp
  · intro hfatal
    rw [detectLogoRec]
    simp only [getFromCache, CacheMap.mapGet, List.find?_nil, Option.map_none', hfail 0]
    rw [dif_neg (by simp [hfatal])]

/-- A sample retryable error (rate limiting). -/
def demoThrottleError : JsError :=
  { code := some "ThrottlingException", statusCode := none, message := "Rate exceeded" }

/-- A sample fatal error (malformed input). -/
def demoFatalError : JsError :=
  { code := some "InvalidParameterException", statusCode := some 400, message := "Bad input" }

/-- C6 witness: with `maxRetries = 3`, a permanently throttled oracle is
attempted 4 times with delays 1000, 2000, 3000 ms, and a fatally failing
oracle is attempted exactly once. -/
theorem claim6_retry_ceiling_witness :
    ((∀ k : ℕ, (fun _ => .error demoThrottleError :
        ℕ → Except JsError (List RawLabel)) k = .error demoThrottleError) ∧
      isRetryableError demoThrottleError = true ∧
      detectLogoRec 3 5000 (fun _ => .error demoThrottleError) (0 : ℕ) 0 [] 0 =
        { attempts := 4, delays := [1000, 2000, 3000]
          outcome := .error "Too many requests. Please wait and try again"
          cache := [] }) ∧
    ((∀ k : ℕ, (fun _ => .error demoFatalError :
        ℕ → Except JsError (List RawLabel)) k = .error demoFatalError) ∧
      isRetryableError demoFatalError = false ∧
      detectLogoRec 3 5000 (fun _ => .error demoFatalError) (0 : ℕ) 0 [] 0 =
        { attempts := 1, delays := []
          outcome := .error "Invalid image format or parameters"
          cache := [] }) := by
  refine ⟨⟨fun _ => rfl, by decide, ?_⟩, ⟨fun _ => rfl, by decide, ?_⟩⟩
  · have h := (claim6_retry_ceiling 3 5000 (fun _ => .error demoThrottleError)
      (0 : ℕ) 0 demoThrottleError (fun _ => rfl)).1 (by decide)
    rw [h]
    rfl
  · have h := (claim6_retry_ceiling 3 5000 (fun _ => .error demoFatalError)
      (0 : ℕ) 0 demoFatalError (fun _ => rfl)).2 (by decide)
    rw [h]
    rfl

theorem runSD_cons (s : SDState) (c : ℤ × ImageData) (rest : List (ℤ × ImageData)) :
    runSD s (c :: rest) = runSD (shouldProcessFrame s c.1 c.2).2 rest := rfl

theorem detectMotion_lastFrame (s : SDState) (img : ImageData) :
    (detectMotion s img).2.lastFrame = some img := by
  unfold detectMotion
  split
  · rfl
  · split
    · rfl
    · rfl

theorem detectMotion_preserve (s : SDState) (img : ImageData) :
    (detectMotion s img).2.isEnabled = s.isEnabled ∧
    (detectMotion s img).2.scanInterval = s.scanInterval ∧
    (detectMotion s img).2.lastScanTime = s.lastScanTime ∧
    (detectMotion s img).2.stats.framesAnalyzed = s.stats.framesAnalyzed ∧
    (detectMotion s img).2.stats.framesSkipped = s.stats.framesSkipped ∧
    (detectMotion s img).2.stats.qualityPassed = s.stats.qualityPassed := by
  unfold detectMotion
  split
  · exact ⟨rfl, rfl, rfl, rfl, rfl, rfl⟩
  · split
    · exact ⟨rfl, rfl, rfl, rfl, rfl, rfl⟩
    · exact ⟨rfl, rfl, rfl, rfl, rfl, rfl⟩

theorem detectMotion_of_none (s : SDState) (img : ImageData) (h : s.lastFrame = none) :
    (detectMotion s img).1 = true := by
  unfold detectMotion
  rw [h]

theorem detectMotion_of_some (s : SDState) (img prev : ImageData)
    (h : s.lastFrame = some prev)
    (hd : s.motionThreshold < calculateFrameDifference img prev) :
    (detectMotion s img).1 = true := by
  unfold detectMotion
  rw [h]
  show (if s.motionThreshold < calculateFrameDifference img prev then
    (true, motionInc { s with lastFrame := some img })
    else (false, { s with lastFrame := some img })).1 = true
  rw [if_pos hd]

theorem spf_disabled (s : SDState) (now : ℤ) (f : ImageData) (h : s.isEnabled = false) :
    shouldProcessFrame s now f = (true, s) := by
  unfold shouldProcessFrame
  rw [if_pos h]

theorem spf_throttle_reject (s : SDState) (now : ℤ) (f : ImageData)
    (he : s.isEnabled = true) (ht : now - s.lastScanTime < s.scanInterval) :
    shouldProcessFrame s now f = (false, skipInc (analyzedInc s)) := by
  unfold shouldProcessFrame
  rw [if_neg (by simp [he]), if_pos ht]

theorem spf_motion_reject (s : SDState) (now : ℤ) (f : ImageData)
    (he : s.isEnabled = true) (ht : ¬now - s.lastScanTime < s.scanInterval)
    (hm : (detectMotion (analyzedInc s) f).1 = false) :
    shouldProcessFrame s now f = (false, skipInc (detectMotion (analyzedInc s) f).2) := by
  unfold shouldProcessFrame
  rw [if_neg (by simp [he]), if_neg ht, if_pos hm]

theorem spf_quality_reject (s : SDState) (now : ℤ) (f : ImageData)
    (he : s.isEnabled = true) (ht : ¬now - s.lastScanTime < s.scanInterval)
    (hm : (detectMotion (analyzedInc s) f).1 = true)
    (hq : assessImageQuality f s.qualityThreshold = false) :
    shouldProcessFrame s now f = (false, skipInc (detectMotion (analyzedInc s) f).2) := by
  unfold shouldProcessFrame
  rw [if_neg (by simp [he]), if_neg ht, if_neg (by simp [hm]), if_pos hq]

theorem spf_accept (s : SDState) (now : ℤ) (f : ImageData)
    (he : s.isEnabled = true) (ht : ¬now - s.lastScanTime < s.scanInterval)
    (hm : (detectMotion (analyzedInc s) f).1 = true)
    (hq : assessImageQuality f s.qualityThreshold = true) :
    shouldProcessFrame s now f =
      (true, qualityInc { (detectMotion (analyzedInc s) f).2 with lastScanTime := now }) := by
  unfold shouldProcessFrame
  rw [if_neg (by simp [he]), if_neg ht, if_neg (by simp [hm]), if_neg (by simp [hq])]

theorem spf_admitted (s : SDState) (now : ℤ) (f : ImageData)
    (he : s.isEnabled = true) (h : (shouldProcessFrame s now f).1 = true) :
    (shouldProcessFrame s now f).2.lastScanTime = now ∧
      s.scanInterval ≤ now - s.lastScanTime := by
  by_cases ht : now - s.lastScanTime < s.scanInterval
  · rw [spf_throttle_reject s now f he ht] at h
    exact absurd h (by simp)
  · by_cases hm : (detectMotion (analyzedInc s) f).1 = false
    · rw [spf_motion_reject s now f he ht hm] at h
      exact absurd h (by simp)
    · have hm' : (detectMotion (analyzedInc s) f).1 = true := by
        revert hm
        cases (detectMotion (analyzedInc s) f).1 <;> simp
      by_cases hq : assessImageQuality f s.qualityThreshold = false
      · rw [spf_quality_reject s now f he ht hm' hq] at h
        exact absurd h (by simp)
      · have hq' : assessImageQuality f s.qualityThreshold = true := by
          revert hq
          cases assessImageQuality f s.qualityThreshold <;> simp
        rw [spf_accept s now f he ht hm' hq']
        exact ⟨rfl, not_lt.mp ht⟩

theorem spf_rejected_lastScanTime (s : SDState) (now : ℤ) (f : ImageData)
    (he : s.isEnabled = true) (h : (shouldProcessFrame s now f).1 = false) :
    (shouldProcessFrame s now f).2.lastScanTime = s.lastScanTime := by
  by_cases ht : now - s.lastScanTime < s.scanInterval
  · rw [spf_throttle_reject s now f he ht]
    rfl
  · by_cases hm : (detectMotion (analyzedInc s) f).1 = false
    · rw [spf_motion_reject s now f he ht hm]
      exact (detectMotion_preserve (analyzedInc s) f).2.2.1
    · have hm' : (detectMotion (analyzedInc s) f).1 = true := by
        revert hm
        cases (detectMotion (analyzedInc s) f).1 <;> simp
      by_cases hq : assessImageQuality f s.qualityThreshold = false
      · rw [spf_quality_reject s now f he ht hm' hq]
        exact (detectMotion_preserve (analyzedInc s) f).2.2.1
      · have hq' : assessImageQuality f s.qualityThreshold = true := by
          revert hq
          cases assessImageQuality f s.qualityThreshold <;> simp
        rw [spf_accept s now f he ht hm' hq'] at h
        exact absurd h (by simp)

theorem spf_preserve_config (s : SDState) (now : ℤ) (f : ImageData) :
    (shouldProcessFrame s now f).2.isEnabled = s.isEnabled ∧
    (shouldProcessFrame s now f).2.scanInterval = s.scanInterval := by
  by_cases he : s.isEnabled = false
  · rw [spf_disabled s now f he]
    exact ⟨rfl, rfl⟩
  · have he' : s.isEnabled = true := by
      revert he
      cases s.isEnabled <;> simp
    by_cases ht : now - s.lastScanTime < s.scanInterval
    · rw [spf_throttle_reject s now f he' ht]
      exact ⟨rfl, rfl⟩
    · by_cases hm : (detectMotion (analyzedInc s) f).1 = false
      · rw [spf_motion_reject s now f he' ht hm]
        exact ⟨(detectMotion_preserve (analyzedInc s) f).1,
          (detectMotion_preserve (analyzedInc s) f).2.1⟩
      · have hm' : (detectMotion (analyzedInc s) f).1 = true := by
          revert hm
          cases (detectMotion (analyzedInc s) f).1 <;> simp
        by_cases hq : assessImageQuality f s.qualityThreshold = false
        · rw [spf_quality_reject s now f he' ht hm' hq]
          exact ⟨(detectMotion_preserve (analyzedInc s) f).1,
            (detectMotion_preserve (analyzedInc s) f).2.1⟩
        · have hq' : assessImageQuality f s.qualityThreshold = true := by
            revert hq
            cases assessImageQuality f s.qualityThreshold <;> simp
          rw [spf_accept s now f he' ht hm' hq']
          exact ⟨(detectMotion_preserve (analyzedInc s) f).1,
            (detectMotion_preserve (analyzedInc s) f).2.1⟩

theorem spf_lastScanTime_mono (s : SDState) (now : ℤ) (f : ImageData)
    (he : s.isEnabled = true) (hiv : 0 ≤ s.scanInterval) :
    s.lastScanTime ≤ (shouldProcessFrame s now f).2.lastScanTime := by
  by_cases h : (shouldProcessFrame s now f).1 = true
  · obtain ⟨h1, h2⟩ := spf_admitted s now f he h
    rw [h1]
    omega
  · have h' : (shouldProcessFrame s now f).1 = false := by
      revert h
      cases (shouldProcessFrame s now f).1 <;> simp
    rw [spf_rejected_lastScanTime s now f he h']

theorem runSD_preserve_config (calls : List (ℤ × ImageData)) : ∀ s : SDState,
    (runSD s calls).isEnabled = s.isEnabled ∧
    (runSD s calls).scanInterval = s.scanInterval := by
  induction calls with
  | nil => exact fun s => ⟨rfl, rfl⟩
  | cons c rest ih =>
    intro s
    rw [runSD_cons]
    obtain ⟨h1, h2⟩ := ih (shouldProcessFrame s c.1 c.2).2
    obtain ⟨g1, g2⟩ := spf_preserve_config s c.1 c.2
    exact ⟨h1.trans g1, h2.trans g2⟩

theorem runSD_lastScanTime_mono (calls : List (ℤ × ImageData)) : ∀ s : SDState,
    s.isEnabled = true → 0 ≤ s.scanInterval →
    s.lastScanTime ≤ (runSD s calls).lastScanTime := by
  induction calls with
  | nil => exact fun s _ _ => le_refl _
  | cons c rest ih =>
    intro s he hiv
    rw [runSD_cons]
    refine le_trans (spf_lastScanTime_mono s c.1 c.2 he hiv) ?_
    exact ih (shouldProcessFrame s c.1 c.2).2
      ((spf_preserve_config s c.1 c.2).1.trans he)
      (by rw [(spf_preserve_config s c.1 c.2).2]; exact hiv)

theorem avgBrightness_nonneg (img : ImageData) : 0 ≤ avgBrightness img := by
  unfold avgBrightness
  split
  · apply div_nonneg
    · apply List.sum_nonneg
      intro x hx
      obtain ⟨i, -, rfl⟩ := List.mem_map.mp hx
      unfold lumOf
      positivity
    · positivity
  · exact le_refl 0

theorem calculateBrightness_nonneg (img : ImageData) : 0 ≤ calculateBrightness img := by
  have h0 := avgBrightness_nonneg img
  unfold calculateBrightness
  split_ifs with h1 h2
  · positivity
  · exact le_max_left 0 _
  · norm_num

theorem calculateBrightness_le_one (img : ImageData) : calculateBrightness img ≤ 1 := by
  have h0 := avgBrightness_nonneg img
  unfold calculateBrightness
  split_ifs with h1 h2
  · linarith
  · apply max_le (by norm_num)
    linarith
  · norm_num

theorem sobelAt_nonneg (img : ImageData) (y x : ℕ) : 0 ≤ sobelAt img y x := by
  unfold sobelAt
  exact Real.sqrt_nonneg _

theorem sharpTotal_nonneg (img : ImageData) : 0 ≤ sharpTotal img := by
  unfold sharpTotal
  apply List.sum_nonneg
  intro v hv
  obtain ⟨y, -, rfl⟩ := List.mem_map.mp hv
  apply List.sum_nonneg
  intro w hw
  obtain ⟨x, -, rfl⟩ := List.mem_map.mp hw
  exact sobelAt_nonneg img y x

theorem calculateSharpness_nonneg (img : ImageData) : 0 ≤ calculateSharpness img := by
  unfold calculateSharpness
  split
  · apply div_nonneg (div_nonneg (sharpTotal_nonneg img) ?_) (by norm_num)
    positivity
  · exact le_refl 0

/-- A 1×1 all-black frame (RGBA `[0,0,0,0]`). -/
def blackFrame : ImageData := ⟨1, 1, [0, 0, 0, 0]⟩

/-- A 1×1 mid-gray frame (RGB 100, in the optimal brightness band). -/
def grayFrame : ImageData := ⟨1, 1, [100, 100, 100, 0]⟩

/-- A 1×1 bright-gray frame (RGB 200, still in the optimal band). -/
def brightFrame : ImageData := ⟨1, 1, [200, 200, 200, 0]⟩

/-- A 3×3 high-contrast frame: black left column and top-middle, white right
column and bottom-middle.  Its single Sobel sample has `gx = 1020`,
`gy = 510`. -/
def sharpFrame : ImageData :=
  ⟨3, 3, [0, 0, 0, 0, 0, 0, 0, 0, 255, 255, 255, 0,
          0, 0, 0, 0, 0, 0, 0, 0, 255, 255, 255, 0,
          0, 0, 0, 0, 255, 255, 255, 0, 255, 255, 255, 0]⟩

theorem getLuminance_eval (data : List ℕ) (i : ℤ) (j r g b : ℕ)
    (hi : Int.toNat i = j) (hneg : ¬(i < 0 ∨ (data.length : ℤ) - 2 ≤ i))
    (hr : data.getD j 0 = r) (hg : data.getD (j + 1) 0 = g)
    (hb : data.getD (j + 2) 0 = b) :
    getLuminance data i = lumOf r g b := by
  unfold getLuminance
  rw [if_neg hneg, hi, hr, hg, hb]

theorem sobelGx_sharpFrame : sobelGx sharpFrame 1 1 = 1020 := by
  have e0 : getLuminance sharpFrame.data 0 = lumOf 0 0 0 :=
    getLuminance_eval _ 0 0 0 0 0 rfl (by decide) (by decide) (by decide) (by decide)
  have e8 : getLuminance sharpFrame.data 8 = lumOf 255 255 255 :=
    getLuminance_eval _ 8 8 255 255 255 rfl (by decide) (by decide) (by decide) (by decide)
  have e12 : getLuminance sharpFrame.data 12 = lumOf 0 0 0 :=
    getLuminance_eval _ 12 12 0 0 0 rfl (by decide) (by decide) (by decide) (by decide)
  have e20 : getLuminance sharpFrame.data 20 = lumOf 255 255 255 :=
    getLuminance_eval _ 20 20 255 255 255 rfl (by decide) (by decide) (by decide) (by decide)
  have e24 : getLuminance sharpFrame.data 24 = lumOf 0 0 0 :=
    getLuminance_eval _ 24 24 0 0 0 rfl (by decide) (by decide) (by decide) (by decide)
  have e32 : getLuminance sharpFrame.data 32 = lumOf 255 255 255 :=
    getLuminance_eval _ 32 32 255 255 255 rfl (by decide) (by decide) (by decide) (by decide)
  simp only [sobelGx, show sharpFrame.width = 3 from rfl]
  norm_num
  rw [e0, e8, e12, e20, e24, e32]
  norm_num [lumOf]

theorem sobelGy_sharpFrame : sobelGy sharpFrame 1 1 = 510 := by
  have e0 : getLuminance sharpFrame.data 0 = lumOf 0 0 0 :=
    getLuminance_eval _ 0 0 0 0 0 rfl (by decide) (by decide) (by decide) (by decide)
  have e4 : getLuminance sharpFrame.data 4 = lumOf 0 0 0 :=
    getLuminance_eval _ 4 4 0 0 0 rfl (by decide) (by decide) (by decide) (by decide)
  have e8 : getLuminance sharpFrame.data 8 = lumOf 255 255 255 :=
    getLuminance_eval _ 8 8 255 255 255 rfl (by decide) (by decide) (by decide) (by decide)
  have e24 : getLuminance sharpFrame.data 24 = lumOf 0 0 0 :=
    getLuminance_eval _ 24 24 0 0 0 rfl (by decide) (by decide) (by decide) (by decide)
  have e28 : getLuminance sharpFrame.data 28 = lumOf 255 255 255 :=
    getLuminance_eval _ 28 28 255 255 255 rfl (by decide) (by decide) (by decide) (by decide)
  have e32 : getLuminance sharpFrame.data 32 = lumOf 255 255 255 :=
    getLuminance_eval _ 32 32 255 255 255 rfl (by decide) (by decide) (by decide) (by decide)
  simp only [sobelGy, show sharpFrame.width = 3 from rfl]
  norm_num
  rw [e0, e4, e8, e24, e28, e32]
  norm_num [lumOf]

theorem sobelAt_sharpFrame : sobelAt sharpFrame 1 1 = Real.sqrt 1300500 := by
  unfold sobelAt
  rw [sobelGx_sharpFrame, sobelGy_sharpFrame]
  norm_num

theorem calculateSharpness_sharpFrame :
    calculateSharpness sharpFrame = Real.sqrt 1300500 / 255 := by
  unfold calculateSharpness sharpTotal
  rw [show sharpRows sharpFrame = [1] from by decide,
    show sharpCols sharpFrame = [1] from by decide]
  rw [if_pos (by norm_num)]
  simp [sobelAt_sharpFrame]

theorem calculateBrightness_sharpFrame : calculateBrightness sharpFrame = 0 := by
  norm_num [calculateBrightness, avgBrightness, brightSamples, sharpFrame, lumOf,
    List.range_succ, List.getD]

theorem calculateSharpness_thin (img : ImageData) (h : img.height - 2 = 0) :
    calculateSharpness img = 0 := by
  unfold calculateSharpness
  rw [if_neg]
  simp [sharpRows, h]

theorem calculateBrightness_blackFrame : calculateBrightness blackFrame = 0 := by
  norm_num [calculateBrightness, avgBrightness, brightSamples, blackFrame, lumOf,
    List.range_succ, List.getD]

theorem calculateBrightness_grayFrame : calculateBrightness grayFrame = 1 := by
  norm_num [calculateBrightness, avgBrightness, brightSamples, grayFrame, lumOf,
    List.range_succ, List.getD]

theorem calculateBrightness_brightFrame : calculateBrightness brightFrame = 1 := by
  norm_num [calculateBrightness, avgBrightness, brightSamples, brightFrame, lumOf,
    List.range_succ, List.getD]

theorem qualityScore_blackFrame : qualityScore blackFrame = 0 := by
  unfold qualityScore
  rw [calculateSharpness_thin blackFrame rfl, calculateBrightness_blackFrame]
  norm_num

theorem qualityScore_grayFrame : qualityScore grayFrame = 0.3 := by
  unfold qualityScore
  rw [calculateSharpness_thin grayFrame rfl, calculateBrightness_grayFrame]
  norm_num

theorem qualityScore_brightFrame : qualityScore brightFrame = 0.3 := by
  unfold qualityScore
  rw [calculateSharpness_thin brightFrame rfl, calculateBrightness_brightFrame]
  norm_num

theorem assess_black_07 : assessImageQuality blackFrame (0.7 : ℝ) = false := by
  unfold assessImageQuality
  exact decide_eq_false (by rw [qualityScore_blackFrame]; norm_num)

theorem assess_gray_02 : assessImageQuality grayFrame (0.2 : ℝ) = true := by
  unfold assessImageQuality
  exact decide_eq_true (by rw [qualityScore_grayFrame]; norm_num)

theorem assess_bright_02 : assessImageQuality brightFrame (0.2 : ℝ) = true := by
  unfold assessImageQuality
  exact decide_eq_true (by rw [qualityScore_brightFrame]; norm_num)

/-- A fresh enabled `SmartDetection` instance with the configured defaults
`MOTION_THRESHOLD = 0.1`, `QUALITY_THRESHOLD = 0.7` and a 10 ms scan
interval. -/
noncomputable def demoState : SDState :=
  { lastFrame := none, lastScanTime := 0, isEnabled := true, motionThreshold := 0.1,
    qualityThreshold := 0.7, scanInterval := 10, stats := ⟨0, 0, 0, 0⟩ }

/-- `demoState` after `setEnabled(false)`. -/
noncomputable def demoDisabledState : SDState := { demoState with isEnabled := false }

/-- `demoState` with the quality threshold lowered to 0.2 (as via
`updateSettings`), so that in-band 1×1 frames pass the quality gate. -/
noncomputable def demoAdmitState : SDState := { demoState with qualityThreshold := 0.2 }

/-- C2 counterexample: the 3×3 `sharpFrame` is a well-formed RGBA frame
(byte buffer of length `4*width*height`, all bytes ≤ 255) whose sharpness
sub-score is `√1300500 / 255 ≈ 4.47 > 1` and whose combined quality score
`0.7 × sharpness + 0.3 × brightness ≈ 3.13` also exceeds 1 — refuting both
the claim that the sharpness sub-score lies in [0,1] and the claim that the
combined score lies in [0,1]. -/
theorem claim2_quality_counterexample :
    sharpFrame.data.length = 4 * sharpFrame.width * sharpFrame.height ∧
    (∀ v ∈ sharpFrame.data, v ≤ 255) ∧
    1 < calculateSharpness sharpFrame ∧
    1 < qualityScore sharpFrame := by
  have h1140 : (1140 : ℝ) < Real.sqrt 1300500 := by
    rw [Real.lt_sqrt (by norm_num)]
    norm_num
  refine ⟨by decide, by decide, ?_, ?_⟩
  · rw [calculateSharpness_sharpFrame]
    rw [lt_div_iff₀ (by norm_num : (0:ℝ) < 255)]
    linarith
  · unfold qualityScore
    rw [calculateSharpness_sharpFrame, calculateBrightness_sharpFrame]
    push_cast
    nlinarith [h1140]

/-- C2 amended: for every frame, the brightness sub-score lies in [0,1] and
the sharpness sub-score and the combined quality score
`0.7 × sharpness + 0.3 × brightness` are nonnegative, with the combined
score bounded by `0.7 × sharpness + 0.3`; the sharpness sub-score (and
hence the combined score) is NOT bounded by 1. -/
theorem claim2_quality_bounds_amended (img : ImageData) :
    0 ≤ calculateSharpness img ∧
    0 ≤ calculateBrightness img ∧ calculateBrightness img ≤ 1 ∧
    0 ≤ qualityScore img ∧
    qualityScore img ≤ calculateSharpness img * 0.7 + 0.3 := by
  have h1 := calculateSharpness_nonneg img
  have h2 := calculateBrightness_nonneg img
  have h3 := calculateBrightness_le_one img
  have h2' : (0:ℝ) ≤ (calculateBrightness img : ℝ) := by exact_mod_cast h2
  have h3' : ((calculateBrightness img : ℝ)) ≤ 1 := by exact_mod_cast h3
  refine ⟨h1, h2, h3, ?_, ?_⟩
  · unfold qualityScore
    nlinarith
  · unfold qualityScore
    nlinarith

/-- Evaluation of one full pipeline step on `demoState` at instant 10 with
the all-black frame: the throttle admits (10 - 0 ≥ 10), motion admits
(fresh baseline), but the quality gate rejects (score 0 ≤ 0.7). -/
theorem step_demo_black : shouldProcessFrame demoState 10 blackFrame =
    (false, skipInc (detectMotion (analyzedInc demoState) blackFrame).2) :=
  spf_quality_reject demoState 10 blackFrame rfl (by decide)
    (detectMotion_of_none (analyzedInc demoState) blackFrame rfl) assess_black_07

/-- C3 counterexample: on `demoState` (enabled, `lastScanTime = 0`,
`scanInterval = 10`), the frame at instant 10 passes the throttle gate
(`10 - 0 ≥ 10`), yet after the call `lastScanTime` is still 0, not 10 —
because the frame fails the quality gate, and `lastScanTime` is only
written on full admission.  This refutes "whenever the throttle admits,
lastScanTime is updated to now". -/
theorem claim3_throttle_counterexample :
    demoState.isEnabled = true ∧
    demoState.scanInterval ≤ (10:ℤ) - demoState.lastScanTime ∧
    (shouldProcessFrame demoState 10 blackFrame).2.lastScanTime ≠ 10 := by
  refine ⟨rfl, by decide, ?_⟩
  rw [step_demo_black]
  show (detectMotion (analyzedInc demoState) blackFrame).2.lastScanTime ≠ 10
  rw [(detectMotion_preserve (analyzedInc demoState) blackFrame).2.2.1]
  show (0:ℤ) ≠ 10
  norm_num

/-- C3 amended: on an enabled instance, the throttle gate admits iff
`now - lastScanTime ≥ scanInterval` (in particular, a frame inside the
interval is rejected, and any fully admitted frame passed the gate), and
`lastScanTime` is updated to `now` exactly on full admission — on any
rejected frame (throttle, motion, or quality) it is left unchanged. -/
theorem claim3_throttle_amended (s : SDState) (now : ℤ) (f : ImageData)
    (he : s.isEnabled = true) :
    ((shouldProcessFrame s now f).1 = true →
      s.scanInterval ≤ now - s.lastScanTime ∧
      (shouldProcessFrame s now f).2.lastScanTime = now) ∧
    (now - s.lastScanTime < s.scanInterval →
      (shouldProcessFrame s now f).1 = false) ∧
    ((shouldProcessFrame s now f).1 = false →
      (shouldProcessFrame s now f).2.lastScanTime = s.lastScanTime) := by
  refine ⟨?_, ?_, spf_rejected_lastScanTime s now f he⟩
  · intro h
    obtain ⟨h1, h2⟩ := spf_admitted s now f he h
    exact ⟨h2, h1⟩
  · intro ht
    rw [spf_throttle_reject s now f he ht]

/-- C3 witness: on `demoState` a frame at instant 3 is inside the 10 ms
interval, hence rejected by the throttle with `lastScanTime` unchanged. -/
theorem claim3_throttle_witness :
    demoState.isEnabled = true ∧
    ((3:ℤ) - demoState.lastScanTime < demoState.scanInterval) ∧
    (shouldProcessFrame demoState 3 grayFrame).1 = false :=
  ⟨rfl, by decide, (claim3_throttle_amended demoState 3 grayFrame rfl).2.1 (by decide)⟩

/-- C4 counterexample: two frames of the same enabled instance both pass
the throttle gate at instants 10 and 11 (the first fails the quality gate,
so `lastScanTime` stays 0), yet `11 - 10 = 1 < scanInterval = 10` — refuting
the claim for frames that are merely admitted past the throttle gate. -/
theorem claim4_throttle_invariant_counterexample :
    demoState.isEnabled = true ∧
    demoState.scanInterval ≤ (10:ℤ) - demoState.lastScanTime ∧
    (shouldProcessFrame demoState 10 blackFrame).2.isEnabled = true ∧
    demoState.scanInterval ≤
      (11:ℤ) - (shouldProcessFrame demoState 10 blackFrame).2.lastScanTime ∧
    (11:ℤ) - 10 < demoState.scanInterval := by
  have hl : (shouldProcessFrame demoState 10 blackFrame).2.lastScanTime = (0:ℤ) := by
    rw [step_demo_black]
    exact (detectMotion_preserve (analyzedInc demoState) blackFrame).2.2.1
  refine ⟨rfl, by decide, ?_, ?_, by decide⟩
  · rw [step_demo_black]
    exact (detectMotion_preserve (analyzedInc demoState) blackFrame).1
  · rw [hl]
    decide

/-- C4 amended: for any two FULLY admitted frames (`shouldProcessFrame`
returned true) of the same enabled instance with nonnegative scan interval,
at instants `t1` and then later `t2` (with arbitrary other calls before,
between), `t2 - t1 ≥ scanInterval` holds. -/
theorem claim4_throttle_invariant_amended (s0 : SDState)
    (pre mid : List (ℤ × ImageData)) (t1 t2 : ℤ) (f1 f2 : ImageData)
    (hen : s0.isEnabled = true) (hiv : 0 ≤ s0.scanInterval)
    (h1 : (shouldProcessFrame (runSD s0 pre) t1 f1).1 = true)
    (h2 : (shouldProcessFrame
      (runSD (shouldProcessFrame (runSD s0 pre) t1 f1).2 mid) t2 f2).1 = true) :
    s0.scanInterval ≤ t2 - t1 := by
  obtain ⟨hAe, hAi⟩ := runSD_preserve_config pre s0
  have hAen : (runSD s0 pre).isEnabled = true := hAe.trans hen
  obtain ⟨hadm1, -⟩ := spf_admitted (runSD s0 pre) t1 f1 hAen h1
  obtain ⟨hBe, hBi⟩ := spf_preserve_config (runSD s0 pre) t1 f1
  have hBen : (shouldProcessFrame (runSD s0 pre) t1 f1).2.isEnabled = true :=
    hBe.trans hAen
  have hBiv : 0 ≤ (shouldProcessFrame (runSD s0 pre) t1 f1).2.scanInterval := by
    rw [hBi, hAi]
    exact hiv
  have hmono := runSD_lastScanTime_mono mid
    (shouldProcessFrame (runSD s0 pre) t1 f1).2 hBen hBiv
  rw [hadm1] at hmono
  obtain ⟨hCe, hCi⟩ := runSD_preserve_config mid (shouldProcessFrame (runSD s0 pre) t1 f1).2
  have hCen : (runSD (shouldProcessFrame (runSD s0 pre) t1 f1).2 mid).isEnabled = true :=
    hCe.trans hBen
  obtain ⟨-, hadm2⟩ := spf_admitted
    (runSD (shouldProcessFrame (runSD s0 pre) t1 f1).2 mid) t2 f2 hCen h2
  rw [hCi, hBi, hAi] at hadm2
  omega

/-- C4 witness: on `demoAdmitState` (quality threshold 0.2), the gray frame
at instant 10 and the bright frame at instant 25 are both fully admitted,
and indeed `25 - 10 ≥ 10`. -/
theorem claim4_throttle_invariant_witness :
    demoAdmitState.isEnabled = true ∧ (0:ℤ) ≤ demoAdmitState.scanInterval ∧
    (shouldProcessFrame (runSD demoAdmitState []) 10 grayFrame).1 = true ∧
    (shouldProcessFrame
      (runSD (shouldProcessFrame (runSD demoAdmitState []) 10 grayFrame).2 [])
      25 brightFrame).1 = true ∧
    demoAdmitState.scanInterval ≤ (25:ℤ) - 10 := by
  have hstep1 : shouldProcessFrame demoAdmitState 10 grayFrame =
      (true, qualityInc { (detectMotion (analyzedInc demoAdmitState) grayFrame).2 with
        lastScanTime := 10 }) :=
    spf_accept demoAdmitState 10 grayFrame rfl (by decide)
      (detectMotion_of_none (analyzedInc demoAdmitState) grayFrame rfl) assess_gray_02
  have h1 : (shouldProcessFrame (runSD demoAdmitState []) 10 grayFrame).1 = true := by
    show (shouldProcessFrame demoAdmitState 10 grayFrame).1 = true
    rw [hstep1]
  have hdiff : calculateFrameDifference brightFrame grayFrame = 20 / 51 := by
    norm_num [calculateFrameDifference, brightFrame, grayFrame, lumOf,
      List.range_succ, List.getD]
  have hmot : (detectMotion (analyzedInc (qualityInc
      { (detectMotion (analyzedInc demoAdmitState) grayFrame).2 with
        lastScanTime := 10 })) brightFrame).1 = true := by
    apply detectMotion_of_some _ brightFrame grayFrame
    · show (detectMotion (analyzedInc demoAdmitState) grayFrame).2.lastFrame
        = some grayFrame
      exact detectMotion_lastFrame _ _
    · show (0.1 : ℚ) < calculateFrameDifference brightFrame grayFrame
      rw [hdiff]
      norm_num
  have h2 : (shouldProcessFrame
      (runSD (shouldProcessFrame (runSD demoAdmitState []) 10 grayFrame).2 [])
      25 brightFrame).1 = true := by
    show (shouldProcessFrame (shouldProcessFrame demoAdmitState 10 grayFrame).2
      25 brightFrame).1 = true
    rw [hstep1, spf_accept _ 25 brightFrame rfl (by decide) hmot assess_bright_02]
  exact ⟨rfl, by decide, h1, h2,
    claim4_throttle_invariant_amended demoAdmitState [] [] 10 25 grayFrame brightFrame
      rfl (by decide) h1 h2⟩

/-- C5 counterexample: on a disabled instance with zeroed stats, a call to
`shouldProcessFrame` returns true but does NOT record the frame-seen
counter: `framesAnalyzed` stays 0, because the disabled bypass returns
before any stat is touched. -/
theorem claim5_disabled_counterexample :
    demoDisabledState.isEnabled = false ∧
    demoDisabledState.stats.framesAnalyzed = 0 ∧
    (shouldProcessFrame demoDisabledState 5 grayFrame).1 = true ∧
    (shouldProcessFrame demoDisabledState 5 grayFrame).2.stats.framesAnalyzed = 0 := by
  refine ⟨rfl, rfl, ?_, ?_⟩
  · rw [spf_disabled demoDisabledState 5 grayFrame rfl]
  · rw [spf_disabled demoDisabledState 5 grayFrame rfl]
    rfl

/-- C5 amended: when the pipeline is disabled, `shouldProcessFrame` returns
true for every input frame and leaves the entire instance state — all four
statistics counters, the motion baseline and `lastScanTime` — untouched
(it records nothing, not even the frame-seen counter). -/
theorem claim5_disabled_amended (s : SDState) (now : ℤ) (f : ImageData)
    (h : s.isEnabled = false) : shouldProcessFrame s now f = (true, s) :=
  spf_disabled s now f h

/-- C5 witness: the disabled instance at instant 5 with the gray frame. -/
theorem claim5_disabled_witness :
    demoDisabledState.isEnabled = false ∧
    shouldProcessFrame demoDisabledState 5 grayFrame = (true, demoDisabledState) :=
  ⟨rfl, claim5_disabled_amended demoDisabledState 5 grayFrame rfl⟩

/-- C8 confirmed: on an enabled instance, a frame rejected by the throttle
gate yields `false` and a state identical to the input except that
`framesAnalyzed` and `framesSkipped` are each incremented — in particular
the motion baseline (`lastFrame`), `lastScanTime`, and the motion and
quality counters are untouched, so neither the motion nor the quality check
ran and the next motion evaluation compares against the same baseline. -/
theorem claim8_throttle_skip (s : SDState) (now : ℤ) (f : ImageData)
    (he : s.isEnabled = true) (ht : now - s.lastScanTime < s.scanInterval) :
    shouldProcessFrame s now f = (false,
      { s with stats := { s.stats with
          framesAnalyzed := s.stats.framesAnalyzed + 1
          framesSkipped := s.stats.framesSkipped + 1 } }) := by
  rw [spf_throttle_reject s now f he ht]
  rfl

/-- C8 witness: `demoState` at instant 3 (inside the 10 ms interval). -/
theorem claim8_throttle_skip_witness :
    demoState.isEnabled = true ∧
    ((3:ℤ) - demoState.lastScanTime < demoState.scanInterval) ∧
    shouldProcessFrame demoState 3 grayFrame = (false,
      { demoState with stats := { demoState.stats with
          framesAnalyzed := demoState.stats.framesAnalyzed + 1
          framesSkipped := demoState.stats.framesSkipped + 1 } }) :=
  ⟨rfl, by decide, claim8_throttle_skip demoState 3 grayFrame rfl (by decide)⟩

/-- C9 confirmed: after every call to the motion check the baseline equals
(a copy of) the current frame; the first evaluation on an empty baseline
always admits; and on an enabled instance any frame that reaches the motion
check (throttle passed) replaces the baseline even if it goes on to fail
the quality check. -/
theorem claim9_baseline_replacement (s : SDState) (now : ℤ) (f : ImageData) :
    (detectMotion s f).2.lastFrame = some f ∧
    (s.lastFrame = none → (detectMotion s f).1 = true) ∧
    (s.isEnabled = true → s.scanInterval ≤ now - s.lastScanTime →
      (shouldProcessFrame s now f).2.lastFrame = some f) := by
  refine ⟨detectMotion_lastFrame s f, detectMotion_of_none s f, ?_⟩
  intro he ht'
  have ht : ¬now - s.lastScanTime < s.scanInterval := not_lt.mpr ht'
  by_cases hm : (detectMotion (analyzedInc s) f).1 = false
  · rw [spf_motion_reject s now f he ht hm]
    exact detectMotion_lastFrame (analyzedInc s) f
  · have hm' : (detectMotion (analyzedInc s) f).1 = true := by
      revert hm
      cases (detectMotion (analyzedInc s) f).1 <;> simp
    by_cases hq : assessImageQuality f s.qualityThreshold = false
    · rw [spf_quality_reject s now f he ht hm' hq]
      exact detectMotion_lastFrame (analyzedInc s) f
    · have hq' : assessImageQuality f s.qualityThreshold = true := by
        revert hq
        cases assessImageQuality f s.qualityThreshold <;> simp
      rw [spf_accept s now f he ht hm' hq']
      exact detectMotion_lastFrame (analyzedInc s) f

/-- C9 witness: `demoState` (fresh baseline) at instant 10 with the gray
frame (which fails the 0.7 quality gate, yet the baseline is replaced). -/
theorem claim9_baseline_replacement_witness :
    demoState.lastFrame = none ∧ demoState.isEnabled = true ∧
    demoState.scanInterval ≤ (10:ℤ) - demoState.lastScanTime ∧
    (detectMotion demoState grayFrame).2.lastFrame = some grayFrame ∧
    (detectMotion demoState grayFrame).1 = true ∧
    (shouldProcessFrame demoState 10 grayFrame).2.lastFrame = some grayFrame :=
  ⟨rfl, rfl, by decide,
    (claim9_baseline_replacement demoState 10 grayFrame).1,
    (claim9_baseline_replacement demoState 10 grayFrame).2.1 rfl,
    (claim9_baseline_replacement demoState 10 grayFrame).2.2 rfl (by decide)⟩

theorem spf_statsOk (s : SDState) (now : ℤ) (f : ImageData)
    (he : s.isEnabled = true)
    (h : s.stats.framesAnalyzed = s.stats.framesSkipped + s.stats.qualityPassed) :
    (shouldProcessFrame s now f).2.stats.framesAnalyzed =
      (shouldProcessFrame s now f).2.stats.framesSkipped +
      (shouldProcessFrame s now f).2.stats.qualityPassed := by
  by_cases ht : now - s.lastScanTime < s.scanInterval
  · rw [spf_throttle_reject s now f he ht]
    show s.stats.framesAnalyzed + 1 =
      s.stats.framesSkipped + 1 + s.stats.qualityPassed
    omega
  · obtain ⟨-, -, -, ha, hs, hq⟩ := detectMotion_preserve (analyzedInc s) f
    by_cases hm : (detectMotion (analyzedInc s) f).1 = false
    · rw [spf_motion_reject s now f he ht hm]
      show (detectMotion (analyzedInc s) f).2.stats.framesAnalyzed =
        (detectMotion (analyzedInc s) f).2.stats.framesSkipped + 1 +
        (detectMotion (analyzedInc s) f).2.stats.qualityPassed
      rw [ha, hs, hq]
      show s.stats.framesAnalyzed + 1 =
        s.stats.framesSkipped + 1 + s.stats.qualityPassed
      omega
    · have hm' : (detectMotion (analyzedInc s) f).1 = true := by
        revert hm
        cases (detectMotion (analyzedInc s) f).1 <;> simp
      by_cases hquality : assessImageQuality f s.qualityThreshold = false
      · rw [spf_quality_reject s now f he ht hm' hquality]
        show (detectMotion (analyzedInc s) f).2.stats.framesAnalyzed =
          (detectMotion (analyzedInc s) f).2.stats.framesSkipped + 1 +
          (detectMotion (analyzedInc s) f).2.stats.qualityPassed
        rw [ha, hs, hq]
        show s.stats.framesAnalyzed + 1 =
          s.stats.framesSkipped + 1 + s.stats.qualityPassed
        omega
      · have hq' : assessImageQuality f s.qualityThreshold = true := by
          revert hquality
          cases assessImageQuality f s.qualityThreshold <;> simp
        rw [spf_accept s now f he ht hm' hq']
        show (detectMotion (analyzedInc s) f).2.stats.framesAnalyzed =
          (detectMotion (analyzedInc s) f).2.stats.framesSkipped +
          ((detectMotion (analyzedInc s) f).2.stats.qualityPassed + 1)
        rw [ha, hs, hq]
        show s.stats.framesAnalyzed + 1 =
          s.stats.framesSkipped + (s.stats.qualityPassed + 1)
        omega

/-- C10 confirmed: starting from zeroed statistics (construction or reset)
on an enabled instance, after every sequence of `shouldProcessFrame` calls
the invariant `framesAnalyzed = framesSkipped + qualityPassed` holds. -/
theorem claim10_stats_consistency (calls : List (ℤ × ImageData)) :
    ∀ s0 : SDState, s0.isEnabled = true →
    s0.stats.framesAnalyzed = s0.stats.framesSkipped + s0.stats.qualityPassed →
    (runSD s0 calls).stats.framesAnalyzed =
      (runSD s0 calls).stats.framesSkipped +
      (runSD s0 calls).stats.qualityPassed := by
  induction calls with
  | nil => exact fun s0 _ h0 => h0
  | cons c rest ih =>
    intro s0 hen h0
    rw [runSD_cons]
    exact ih (shouldProcessFrame s0 c.1 c.2).2
      ((spf_preserve_config s0 c.1 c.2).1.trans hen)
      (spf_statsOk s0 c.1 c.2 hen h0)

/-- C10 witness: `demoState` (zeroed stats) after a two-call sequence. -/
theorem claim10_stats_consistency_witness :
    demoState.isEnabled = true ∧
    demoState.stats.framesAnalyzed =
      demoState.stats.framesSkipped + demoState.stats.qualityPassed ∧
    (runSD demoState [((3:ℤ), grayFrame), ((10:ℤ), blackFrame)]).stats.framesAnalyzed =
      (runSD demoState [((3:ℤ), grayFrame), ((10:ℤ), blackFrame)]).stats.framesSkipped +
      (runSD demoState [((3:ℤ), grayFrame), ((10:ℤ), blackFrame)]).stats.qualityPassed :=
  ⟨rfl, rfl,
    claim10_stats_consistency [((3:ℤ), grayFrame), ((10:ℤ), blackFrame)]
      demoState rfl rfl⟩

end LogoDetection
